import Mathlib

/-!
Verification of the boids simulation (`src/main.rs`, `src/boid.rs`).

Shallow embedding over the reals: `f32` values are modelled as `ℝ`, with the
numeric operations (including `sqrt`) read off the Rust source exactly.  The
bonsai behavior trees in the source are ticked on a *clone* that is discarded
at the end of every tick, so each tick traverses both trees from their initial
state; the traversal order is therefore fixed and is inlined into `gameTick`
and `gameOpTick` below (see the comments at those definitions).
-/

set_option maxHeartbeats 1000000

noncomputable section

namespace Boids

/-- `SPEED_LIMIT` from `boid.rs`. -/
def SPEED_LIMIT : ℝ := 400

/-- `VISUAL_RANGE` from `boid.rs`. -/
def VISUAL_RANGE : ℝ := 32

/-- `MIN_DISTANCE` from `boid.rs`. -/
def MIN_DISTANCE : ℝ := 16

/-- `WINDOW_HEIGHT` from `main.rs`. -/
def WINDOW_HEIGHT : ℝ := 720

/-- `WINDOW_WIDTH` from `main.rs`. -/
def WINDOW_WIDTH : ℝ := WINDOW_HEIGHT * (16 / 9)

/-- Cursor position (`mint::Point2<f32>`). -/
abbrev Point := ℝ × ℝ

/-- Cursor/traversal state of a bonsai behavior tree (`bonsai_bt::State`).
The source only ever clones this, ticks the clone and drops it, so the stored
value is pure data here; the single field stands for whatever position the
tree cursor is in. -/
structure BTState where
  cursor : ℕ

/-- `BT<BoidAction, String, f32>`: tree state plus the two blackboard entries
the program reads (`win_width`, `win_height` inserted in `create_bt`). -/
structure BTB where
  st : BTState
  win_width : ℝ
  win_height : ℝ

/-- The `Boid` struct from `boid.rs`. -/
structure Boid where
  x : ℝ
  y : ℝ
  dx : ℝ
  dy : ℝ
  color : ℝ × ℝ × ℝ × ℝ
  bt : BTB

/-- `Boid::distance`: Euclidean distance between two boids' positions. -/
def Boid.distance (b o : Boid) : ℝ :=
  Real.sqrt ((b.x - o.x) ^ 2 + (b.y - o.y) ^ 2)

/-- Position of a boid, for frame statements. -/
def Boid.pos (b : Boid) : ℝ × ℝ :=
  (b.x, b.y)

/-- `BoidAction::AvoidOthers`: accumulate `(self.pos - other.pos)` over every
other boid at distance `0 < dist < MIN_DISTANCE`, scale by `avoid_factor = 0.5`
and add to the velocity. -/
def avoidOthers (b : Boid) (others : List Boid) : Boid :=
  let close := others.filter
    (fun o => decide (b.distance o < MIN_DISTANCE ∧ 0 < b.distance o))
  { b with
    dx := b.dx + ((close.map (fun o => b.x - o.x)).sum) * 0.5
    dy := b.dy + ((close.map (fun o => b.y - o.y)).sum) * 0.5 }

/-- `BoidAction::FlyTowardsCenter`: average the positions of the boids in the
supplied collection that lie within `VISUAL_RANGE`, and steer towards that
centroid scaled by `centering_factor = 0.05`; no-op when the count is zero. -/
def flyTowardsCenter (b : Boid) (others : List Boid) : Boid :=
  let neighbors := others.filter (fun o => decide (b.distance o < VISUAL_RANGE))
  let num : ℝ := neighbors.length
  if 0 < num then
    { b with
      dx := b.dx + ((neighbors.map Boid.x).sum / num - b.x) * 0.05
      dy := b.dy + ((neighbors.map Boid.y).sum / num - b.y) * 0.05 }
  else b

/-- `BoidAction::MatchVelocity`: average the velocities of the boids in the
supplied collection that lie within `VISUAL_RANGE`, and nudge the velocity
towards that average scaled by `matching_factor = 0.1`; no-op when the count
is zero. -/
def matchVelocity (b : Boid) (others : List Boid) : Boid :=
  let neighbors := others.filter (fun o => decide (b.distance o < VISUAL_RANGE))
  let num : ℝ := neighbors.length
  if 0 < num then
    { b with
      dx := b.dx + ((neighbors.map Boid.dx).sum / num - b.dx) * 0.1
      dy := b.dy + ((neighbors.map Boid.dy).sum / num - b.dy) * 0.1 }
  else b

/-- `BoidAction::LimitSpeed`: when the speed exceeds `SPEED_LIMIT`, rescale the
velocity to exactly `SPEED_LIMIT` preserving direction. -/
def limitSpeed (b : Boid) : Boid :=
  let speed := Real.sqrt (b.dx * b.dx + b.dy * b.dy)
  if speed > SPEED_LIMIT then
    { b with dx := b.dx / speed * SPEED_LIMIT, dy := b.dy / speed * SPEED_LIMIT }
  else b

/-- `BoidAction::KeepWithinBounds`, translated statement by statement: the four
edge tests each add or subtract `turn_factor` and toggle the per-axis
`bounded` flag; a `0.8` damping is then applied on an axis whose flag ended up
`false`; finally boids within `20` of the cursor get `(pos - cursor) * 1.0`
added to their velocity. -/
def keepWithinBounds (cursor : Point) (win_width win_height : ℝ) (b : Boid) : Boid :=
  let edge_buffer : ℝ := 40
  let turn_factor : ℝ := 16
  let x_bounded := true
  let y_bounded := true
  let dx := b.dx
  let dy := b.dy
  let dx := if b.x < win_width - edge_buffer then dx + turn_factor else dx
  let x_bounded := if b.x < win_width - edge_buffer then !x_bounded else x_bounded
  let dx := if b.x > edge_buffer then dx - turn_factor else dx
  let x_bounded := if b.x > edge_buffer then !x_bounded else x_bounded
  let dy := if b.y < win_height - edge_buffer then dy + turn_factor else dy
  let y_bounded := if b.y < win_height - edge_buffer then !y_bounded else y_bounded
  let dy := if b.y > edge_buffer then dy - turn_factor else dy
  let y_bounded := if b.y > edge_buffer then !y_bounded else y_bounded
  let dx := if !x_bounded then dx * 0.8 else dx
  let dy := if !y_bounded then dy * 0.8 else dy
  let near := Real.sqrt ((b.x - cursor.1) ^ 2 + (b.y - cursor.2) ^ 2) < 20
  let dx := if near then dx + (b.x - cursor.1) * 1.0 else dx
  let dy := if near then dy + (b.y - cursor.2) * 1.0 else dy
  { b with dx := dx, dy := dy }

/-- Number of the two x-edge tests of `KeepWithinBounds` that fire for a boid,
i.e. how many `turn_factor` nudges its `dx` receives in that step. -/
def xPushCount (win_width : ℝ) (b : Boid) : ℕ :=
  (if b.x < win_width - 40 then 1 else 0) + (if b.x > 40 then 1 else 0)

/-- `Boid::game_tick`.  The clone of `boid.bt` is ticked from its initial
state, which runs the condition `WhenAll([FlyTowardsCenter, AvoidOthers])`
(both children ticked in order, both return `RUNNING`) and then the body
sequence `MatchVelocity; LimitSpeed; KeepWithinBounds`, so one call executes
exactly these five actions in this order.  The `dt` argument only feeds the
behavior-tree event and never reaches the dynamics.  Window bounds are read
from the boid's own blackboard. -/
def gameTick (dt : ℝ) (cursor : Point) (b : Boid) (other_boids : List Boid) : Boid :=
  let _ := dt
  let win_width := b.bt.win_width
  let win_height := b.bt.win_height
  keepWithinBounds cursor win_width win_height
    (limitSpeed
      (matchVelocity
        (avoidOthers
          (flyTowardsCenter b other_boids)
          other_boids)
        other_boids))

/-- Position integration in `GameState::game_op_tick`'s `Play` arm:
`boid.x += boid.dx * tick`, with `tick` the millisecond fraction. -/
def integrate (tick : ℝ) (b : Boid) : Boid :=
  { b with x := b.x + b.dx * tick, y := b.y + b.dy * tick }

/-- One iteration of the `Play` loop: copy the current flock (`to_vec`), run
`game_tick` on boid `i` against that copy, integrate its position, write it
back at index `i`.  Note the copy is taken in each iteration, after earlier
indices were already written back. -/
def playStep (dtSecs tick : ℝ) (cursor : Point) (bs : List Boid) (i : ℕ) : List Boid :=
  match bs[i]? with
  | some b => bs.set i (integrate tick (gameTick dtSecs cursor b bs))
  | none => bs

/-- The `PlayState::Play` arm of `game_op_tick`: iterate `playStep` over all
indices `0..len`. -/
def playBody (dtSecs tick : ℝ) (cursor : Point) (boids : List Boid) : List Boid :=
  (List.range boids.length).foldl (playStep dtSecs tick cursor) boids

/-- Modelled from the spec: the same per-agent update as `playBody`, but with
every neighbor read observing the flock "as it was at the start of the tick"
(snapshot isolation, spec section 5).  Used only to compare against the actual
`playBody`. -/
def playBodySnapshot (dtSecs tick : ℝ) (cursor : Point) (boids : List Boid) : List Boid :=
  boids.map (fun b => integrate tick (gameTick dtSecs cursor b boids))

/-- Modelled from the spec: one iteration of the per-agent update in which the
neighbor collection is "all *other* agents" (spec section 4.3) — the processed
agent is removed from the list handed to the steering engine. -/
def playStepNoSelf (dtSecs tick : ℝ) (cursor : Point) (bs : List Boid) (i : ℕ) : List Boid :=
  match bs[i]? with
  | some b => bs.set i (integrate tick (gameTick dtSecs cursor b (bs.eraseIdx i)))
  | none => bs

/-- Modelled from the spec: the same per-agent update as `playBody`, but using
`playStepNoSelf`, so that the steering engine never receives the processed
agent itself.  Used only to compare against the actual `playBody`. -/
def playBodyNoSelf (dtSecs tick : ℝ) (cursor : Point) (boids : List Boid) : List Boid :=
  (List.range boids.length).foldl (playStepNoSelf dtSecs tick cursor) boids

/-- `std::time::Duration`: whole seconds plus subsecond nanoseconds. -/
structure Duration where
  secs : ℕ
  nanos : ℕ

/-- `Duration::subsec_millis`: the subsecond part in whole milliseconds. -/
def Duration.subsecMillis (d : Duration) : ℕ :=
  d.nanos / 1000000

/-- `Duration::as_secs_f32` (exact rather than rounded to `f32`). -/
def Duration.asSecs (d : Duration) : ℝ :=
  (d.secs : ℝ) + (d.nanos : ℝ) / 1000000000

/-- The `PlayState` enum from `main.rs`. -/
inductive PlayState where
  | InputKey
  | Setup
  | Play
  | Pause
  deriving DecidableEq

/-- The pressed-key set, abstracted to the three keys the program looks at
plus a flag for any other pressed key (which makes the set non-empty without
triggering a transition). -/
structure Keys where
  r : Bool
  space : Bool
  p : Bool
  otherKey : Bool

/-- `HashSet::is_empty` on the abstracted key set. -/
def Keys.isEmpty (k : Keys) : Bool :=
  !k.r && !k.space && !k.p && !k.otherKey

/-- The `GameState` struct (rendering-only fields `points`/context omitted). -/
structure GameState where
  state : PlayState
  dt : Duration
  boids : List Boid
  bt : BTB
  game_op_bt : BTState

/-- The `PlayState::InputKey` arm of `game_op_tick`: perform the session-phase
transition driven by the pressed keys.  `spawn` stands for the randomly
generated flock `Boid::create_boids(&self.bt, OBJECT_COUNT, …)` produced on
the Setup→Play transition.  The arm then reports `Success` exactly when the
resulting phase is `Play` (checked by the caller `gameOpTick`). -/
def inputKeyStage (spawn : List Boid) (keys : Keys) (st : GameState) : GameState :=
  if keys.isEmpty then st
  else if keys.r then { st with state := .Setup, boids := [] }
  else
    match st.state with
    | .Setup => if keys.space then { st with boids := spawn, state := .Play } else st
    | .Pause => if keys.space then { st with state := .Play } else st
    | .Play => if keys.p then { st with state := .Pause } else st
    | .InputKey => st

/-- `GameState::game_op_tick`.  The clone of `game_op_bt` is ticked from its
initial state; the root `Sequence([InputKey, Play])` runs the `InputKey` arm
and, only if it returned `Success` (resulting phase `Play`), continues with
the `Play` arm in the same tick.  `tick` is `self.dt.subsec_millis() / 1000`,
and `game_tick` receives `self.dt.as_secs_f32()`. -/
def gameOpTick (spawn : List Boid) (keys : Keys) (cursor : Point) (st : GameState) :
    GameState :=
  let st1 := inputKeyStage spawn keys st
  if st1.state = PlayState.Play then
    let tick : ℝ := (st1.dt.subsecMillis : ℝ) / 1000
    { st1 with boids := playBody st1.dt.asSecs tick cursor st1.boids }
  else st1

/-! ### Helper lemmas about square-root guards -/

lemma sqrt_lt_of_lt_sq {s c : ℝ} (hc : 0 < c) (hs : s < c ^ 2) : Real.sqrt s < c :=
  (Real.sqrt_lt' hc).mpr hs

lemma not_sqrt_lt_of_sq_le {s c : ℝ} (hc : 0 < c) (hs : c ^ 2 ≤ s) : ¬ Real.sqrt s < c :=
  not_lt.mpr ((Real.le_sqrt' hc).mpr hs)

lemma not_lt_sqrt_of_le_sq {s c : ℝ} (hc : 0 ≤ c) (hs : s ≤ c ^ 2) : ¬ c < Real.sqrt s :=
  not_lt.mpr ((Real.sqrt_le_left hc).mpr hs)

lemma vis_guard_true {b o : Boid} (h : (b.x - o.x) ^ 2 + (b.y - o.y) ^ 2 < 1024) :
    decide (b.distance o < VISUAL_RANGE) = true := by
  apply decide_eq_true
  unfold Boid.distance VISUAL_RANGE
  exact sqrt_lt_of_lt_sq (by norm_num) (by norm_num [h])

lemma vis_guard_false {b o : Boid} (h : 1024 ≤ (b.x - o.x) ^ 2 + (b.y - o.y) ^ 2) :
    decide (b.distance o < VISUAL_RANGE) = false := by
  apply decide_eq_false
  unfold Boid.distance VISUAL_RANGE
  exact not_sqrt_lt_of_sq_le (by norm_num) (by norm_num [h])

lemma avoid_guard_true {b o : Boid} (h1 : (b.x - o.x) ^ 2 + (b.y - o.y) ^ 2 < 256)
    (h2 : 0 < (b.x - o.x) ^ 2 + (b.y - o.y) ^ 2) :
    decide (b.distance o < MIN_DISTANCE ∧ 0 < b.distance o) = true := by
  apply decide_eq_true
  unfold Boid.distance MIN_DISTANCE
  exact ⟨sqrt_lt_of_lt_sq (by norm_num) (by norm_num [h1]), Real.sqrt_pos.mpr h2⟩

lemma avoid_guard_zero {b o : Boid} (hx : o.x = b.x) (hy : o.y = b.y) :
    decide (b.distance o < MIN_DISTANCE ∧ 0 < b.distance o) = false := by
  apply decide_eq_false
  rintro ⟨-, hpos⟩
  unfold Boid.distance at hpos
  rw [hx, hy] at hpos
  simp at hpos

lemma avoid_guard_far {b o : Boid} (h : 256 ≤ (b.x - o.x) ^ 2 + (b.y - o.y) ^ 2) :
    decide (b.distance o < MIN_DISTANCE ∧ 0 < b.distance o) = false := by
  apply decide_eq_false
  rintro ⟨hlt, -⟩
  unfold Boid.distance MIN_DISTANCE at hlt
  exact not_sqrt_lt_of_sq_le (by norm_num) (by norm_num [h]) hlt

lemma limitSpeed_id {b : Boid} (h : b.dx * b.dx + b.dy * b.dy ≤ 160000) :
    limitSpeed b = b := by
  have hno : ¬ Real.sqrt (b.dx * b.dx + b.dy * b.dy) > SPEED_LIMIT := by
    unfold SPEED_LIMIT
    exact not_lt_sqrt_of_le_sq (by norm_num) (by norm_num [h])
  simp only [limitSpeed, hno, if_false]

/-! ### Frame lemmas: the steering steps write only the velocity -/

lemma avoidOthers_x (b : Boid) (os : List Boid) : (avoidOthers b os).x = b.x := rfl

lemma avoidOthers_y (b : Boid) (os : List Boid) : (avoidOthers b os).y = b.y := rfl

lemma avoidOthers_bt (b : Boid) (os : List Boid) : (avoidOthers b os).bt = b.bt := rfl

lemma flyTowardsCenter_x (b : Boid) (os : List Boid) : (flyTowardsCenter b os).x = b.x := by
  simp only [flyTowardsCenter]; split <;> rfl

lemma flyTowardsCenter_y (b : Boid) (os : List Boid) : (flyTowardsCenter b os).y = b.y := by
  simp only [flyTowardsCenter]; split <;> rfl

lemma flyTowardsCenter_bt (b : Boid) (os : List Boid) : (flyTowardsCenter b os).bt = b.bt := by
  simp only [flyTowardsCenter]; split <;> rfl

lemma matchVelocity_x (b : Boid) (os : List Boid) : (matchVelocity b os).x = b.x := by
  simp only [matchVelocity]; split <;> rfl

lemma matchVelocity_y (b : Boid) (os : List Boid) : (matchVelocity b os).y = b.y := by
  simp only [matchVelocity]; split <;> rfl

lemma matchVelocity_bt (b : Boid) (os : List Boid) : (matchVelocity b os).bt = b.bt := by
  simp only [matchVelocity]; split <;> rfl

lemma limitSpeed_x (b : Boid) : (limitSpeed b).x = b.x := by
  simp only [limitSpeed]; split <;> rfl

lemma limitSpeed_y (b : Boid) : (limitSpeed b).y = b.y := by
  simp only [limitSpeed]; split <;> rfl

lemma limitSpeed_bt (b : Boid) : (limitSpeed b).bt = b.bt := by
  simp only [limitSpeed]; split <;> rfl

lemma keepWithinBounds_x (c : Point) (w h : ℝ) (b : Boid) :
    (keepWithinBounds c w h b).x = b.x := rfl

lemma keepWithinBounds_y (c : Point) (w h : ℝ) (b : Boid) :
    (keepWithinBounds c w h b).y = b.y := rfl

lemma keepWithinBounds_bt (c : Point) (w h : ℝ) (b : Boid) :
    (keepWithinBounds c w h b).bt = b.bt := rfl

lemma gameTick_x (dt : ℝ) (c : Point) (b : Boid) (os : List Boid) :
    (gameTick dt c b os).x = b.x := by
  unfold gameTick
  rw [keepWithinBounds_x, limitSpeed_x, matchVelocity_x, avoidOthers_x, flyTowardsCenter_x]

lemma gameTick_y (dt : ℝ) (c : Point) (b : Boid) (os : List Boid) :
    (gameTick dt c b os).y = b.y := by
  unfold gameTick
  rw [keepWithinBounds_y, limitSpeed_y, matchVelocity_y, avoidOthers_y, flyTowardsCenter_y]

lemma gameTick_bt (dt : ℝ) (c : Point) (b : Boid) (os : List Boid) :
    (gameTick dt c b os).bt = b.bt := by
  unfold gameTick
  rw [keepWithinBounds_bt, limitSpeed_bt, matchVelocity_bt, avoidOthers_bt, flyTowardsCenter_bt]

lemma integrate_zero (b : Boid) : integrate 0 b = b := by
  unfold integrate
  cases b
  simp

lemma integrate_bt (t : ℝ) (b : Boid) : (integrate t b).bt = b.bt := rfl

/-! ### List and fold helpers -/

lemma set_getElem?_self {α : Type _} :
    ∀ (l : List α) (i : ℕ) (a : α), l[i]? = some a → l.set i a = l
  | [], i, a, h => by simp at h
  | x :: xs, 0, a, h => by
      simp only [List.getElem?_cons_zero, Option.some.injEq] at h
      simp [h]
  | x :: xs, n + 1, a, h => by
      simp only [List.getElem?_cons_succ] at h
      simp [set_getElem?_self xs n a h]

lemma playStep_map {β : Type _} (f : Boid → β) (dtSecs tick : ℝ) (cursor : Point)
    (hf : ∀ (b : Boid) (os : List Boid), f (integrate tick (gameTick dtSecs cursor b os)) = f b)
    (bs : List Boid) (i : ℕ) :
    (playStep dtSecs tick cursor bs i).map f = bs.map f := by
  unfold playStep
  cases h : bs[i]? with
  | none => rfl
  | some b =>
      rw [List.map_set, hf]
      exact set_getElem?_self _ _ _ (by rw [List.getElem?_map, h]; rfl)

lemma foldl_map_invariant {β : Type _} (g : List Boid → ℕ → List Boid) (f : Boid → β)
    (hg : ∀ bs i, (g bs i).map f = bs.map f) :
    ∀ (idxs : List ℕ) (bs : List Boid), ((idxs.foldl g bs).map f) = bs.map f
  | [], _ => rfl
  | i :: is, bs => by
      rw [List.foldl_cons, foldl_map_invariant g f hg is, hg]

lemma playBody_map_pos (dtSecs : ℝ) (cursor : Point) (bs : List Boid) :
    (playBody dtSecs 0 cursor bs).map Boid.pos = bs.map Boid.pos := by
  unfold playBody
  apply foldl_map_invariant
  intro bs' i
  apply playStep_map
  intro b os
  rw [integrate_zero]
  unfold Boid.pos
  rw [gameTick_x, gameTick_y]

lemma playBody_map_bt (dtSecs tick : ℝ) (cursor : Point) (bs : List Boid) :
    (playBody dtSecs tick cursor bs).map Boid.bt = bs.map Boid.bt := by
  unfold playBody
  apply foldl_map_invariant
  intro bs' i
  apply playStep_map
  intro b os
  rw [integrate_bt, gameTick_bt]

/-! ### Case analyses of the bounds-containment step -/

lemma keepWithinBounds_interior {cursor : Point} {winW winH : ℝ} {b : Boid}
    (h1 : 40 < b.x) (h2 : b.x < winW - 40) (h3 : 40 < b.y) (h4 : b.y < winH - 40)
    (hcur : 400 ≤ (b.x - cursor.1) ^ 2 + (b.y - cursor.2) ^ 2) :
    keepWithinBounds cursor winW winH b = b := by
  have hnear : ¬ Real.sqrt ((b.x - cursor.1) ^ 2 + (b.y - cursor.2) ^ 2) < 20 :=
    not_sqrt_lt_of_sq_le (by norm_num) (by norm_num [hcur])
  simp [keepWithinBounds, h1, h2, h3, h4, hnear]

lemma keepWithinBounds_dx_eq (cursor : Point) (winW winH : ℝ) (b : Boid)
    (hcur : ¬ Real.sqrt ((b.x - cursor.1) ^ 2 + (b.y - cursor.2) ^ 2) < 20) :
    (keepWithinBounds cursor winW winH b).dx =
      if b.x < winW - 40 then
        (if b.x > 40 then b.dx + 16 - 16 else (b.dx + 16) * 0.8)
      else
        (if b.x > 40 then (b.dx - 16) * 0.8 else b.dx) := by
  by_cases h1 : b.x < winW - 40 <;> by_cases h2 : b.x > 40 <;>
    simp [keepWithinBounds, h1, h2, hcur]

lemma keepWithinBounds_dy_eq (cursor : Point) (winW winH : ℝ) (b : Boid)
    (hcur : ¬ Real.sqrt ((b.x - cursor.1) ^ 2 + (b.y - cursor.2) ^ 2) < 20) :
    (keepWithinBounds cursor winW winH b).dy =
      if b.y < winH - 40 then
        (if b.y > 40 then b.dy + 16 - 16 else (b.dy + 16) * 0.8)
      else
        (if b.y > 40 then (b.dy - 16) * 0.8 else b.dy) := by
  by_cases h3 : b.y < winH - 40 <;> by_cases h4 : b.y > 40 <;>
    simp [keepWithinBounds, h3, h4, hcur]

/-! ### Concrete flocks used by the counterexamples -/

/-- The blackboard actually installed by `create_bt`: the real window size. -/
def btv : BTB := ⟨⟨0⟩, 1280, 720⟩

/-- Color value for the concrete boids (never read by the engine). -/
def colorZ : ℝ × ℝ × ℝ × ℝ := (0, 0, 0, 0)

/-- A cursor position far away from all concrete boids. -/
def cursorFar : Point := (10000, 10000)

/-- First boid of the two-boid test flock. -/
def cexB0 : Boid := ⟨100, 100, 0, 0, colorZ, btv⟩

/-- Second boid of the two-boid test flock, 10 px to the right of `cexB0`. -/
def cexB1 : Boid := ⟨110, 100, 0, 0, colorZ, btv⟩

/-- `cexB0` after its `game_tick` against `[cexB0, cexB1]`. -/
def cexU0 : Boid := ⟨100, 100, -4.275, 0, colorZ, btv⟩

/-- `cexB1` after its `game_tick` against `[cexU0, cexB1]` (the list the real
loop hands it, containing the already-updated first boid). -/
def cexU1 : Boid := ⟨110, 100, 4.06125, 0, colorZ, btv⟩

/-- `cexB1` after a `game_tick` against the tick-start snapshot `[cexB0, cexB1]`. -/
def cexV1 : Boid := ⟨110, 100, 4.275, 0, colorZ, btv⟩

/-- `cexB0` after a `game_tick` against `[cexB1]` only (self excluded). -/
def cexW0 : Boid := ⟨100, 100, -4.05, 0, colorZ, btv⟩

/-! ### Evaluation of `game_tick` on the concrete flocks -/

lemma fly_b0 : flyTowardsCenter cexB0 [cexB0, cexB1] = ⟨100, 100, 0.25, 0, colorZ, btv⟩ := by
  have g00 : decide (cexB0.distance cexB0 < VISUAL_RANGE) = true :=
    vis_guard_true (by norm_num [cexB0])
  have g01 : decide (cexB0.distance cexB1 < VISUAL_RANGE) = true :=
    vis_guard_true (by norm_num [cexB0, cexB1])
  simp only [flyTowardsCenter, List.filter_cons, List.filter_nil, g00, g01, if_true]
  norm_num [cexB0, cexB1]

lemma avoid_b0 :
    avoidOthers ⟨100, 100, 0.25, 0, colorZ, btv⟩ [cexB0, cexB1] =
      ⟨100, 100, -4.75, 0, colorZ, btv⟩ := by
  have g00 : decide (Boid.distance ⟨100, 100, 0.25, 0, colorZ, btv⟩ cexB0 < MIN_DISTANCE ∧
      0 < Boid.distance ⟨100, 100, 0.25, 0, colorZ, btv⟩ cexB0) = false :=
    avoid_guard_zero (by norm_num [cexB0]) (by norm_num [cexB0])
  have g01 : decide (Boid.distance ⟨100, 100, 0.25, 0, colorZ, btv⟩ cexB1 < MIN_DISTANCE ∧
      0 < Boid.distance ⟨100, 100, 0.25, 0, colorZ, btv⟩ cexB1) = true :=
    avoid_guard_true (by norm_num [cexB1]) (by norm_num [cexB1])
  simp only [avoidOthers, List.filter_cons, List.filter_nil, g00, g01, if_true, if_false]
  norm_num [cexB1]

lemma match_b0 :
    matchVelocity ⟨100, 100, -4.75, 0, colorZ, btv⟩ [cexB0, cexB1] = cexU0 := by
  have g00 : decide (Boid.distance ⟨100, 100, -4.75, 0, colorZ, btv⟩ cexB0 < VISUAL_RANGE) = true :=
    vis_guard_true (by norm_num [cexB0])
  have g01 : decide (Boid.distance ⟨100, 100, -4.75, 0, colorZ, btv⟩ cexB1 < VISUAL_RANGE) = true :=
    vis_guard_true (by norm_num [cexB1])
  simp only [matchVelocity, List.filter_cons, List.filter_nil, g00, g01, if_true]
  norm_num [cexB0, cexB1, cexU0]

lemma tick_b0 : gameTick 0 cursorFar cexB0 [cexB0, cexB1] = cexU0 := by
  unfold gameTick
  rw [fly_b0, avoid_b0, match_b0]
  rw [limitSpeed_id (by norm_num [cexU0])]
  exact keepWithinBounds_interior (by norm_num [cexU0]) (by norm_num [cexU0, cexB0, btv])
    (by norm_num [cexU0]) (by norm_num [cexU0, cexB0, btv])
    (by norm_num [cexU0, cursorFar])

lemma fly_b1 : flyTowardsCenter cexB1 [cexU0, cexB1] = ⟨110, 100, -0.25, 0, colorZ, btv⟩ := by
  have g10 : decide (cexB1.distance cexU0 < VISUAL_RANGE) = true :=
    vis_guard_true (by norm_num [cexB1, cexU0])
  have g11 : decide (cexB1.distance cexB1 < VISUAL_RANGE) = true :=
    vis_guard_true (by norm_num [cexB1])
  simp only [flyTowardsCenter, List.filter_cons, List.filter_nil, g10, g11, if_true]
  norm_num [cexB1, cexU0]

lemma avoid_b1 :
    avoidOthers ⟨110, 100, -0.25, 0, colorZ, btv⟩ [cexU0, cexB1] =
      ⟨110, 100, 4.75, 0, colorZ, btv⟩ := by
  have g10 : decide (Boid.distance ⟨110, 100, -0.25, 0, colorZ, btv⟩ cexU0 < MIN_DISTANCE ∧
      0 < Boid.distance ⟨110, 100, -0.25, 0, colorZ, btv⟩ cexU0) = true :=
    avoid_guard_true (by norm_num [cexU0]) (by norm_num [cexU0])
  have g11 : decide (Boid.distance ⟨110, 100, -0.25, 0, colorZ, btv⟩ cexB1 < MIN_DISTANCE ∧
      0 < Boid.distance ⟨110, 100, -0.25, 0, colorZ, btv⟩ cexB1) = false :=
    avoid_guard_zero (by norm_num [cexB1]) (by norm_num [cexB1])
  simp only [avoidOthers, List.filter_cons, List.filter_nil, g10, g11, if_true, if_false]
  norm_num [cexU0]

lemma match_b1 :
    matchVelocity ⟨110, 100, 4.75, 0, colorZ, btv⟩ [cexU0, cexB1] = cexU1 := by
  have g10 : decide (Boid.distance ⟨110, 100, 4.75, 0, colorZ, btv⟩ cexU0 < VISUAL_RANGE) = true :=
    vis_guard_true (by norm_num [cexU0])
  have g11 : decide (Boid.distance ⟨110, 100, 4.75, 0, colorZ, btv⟩ cexB1 < VISUAL_RANGE) = true :=
    vis_guard_true (by norm_num [cexB1])
  simp only [matchVelocity, List.filter_cons, List.filter_nil, g10, g11, if_true]
  norm_num [cexU0, cexB1, cexU1]

lemma tick_b1 : gameTick 0 cursorFar cexB1 [cexU0, cexB1] = cexU1 := by
  unfold gameTick
  rw [fly_b1, avoid_b1, match_b1]
  rw [limitSpeed_id (by norm_num [cexU1])]
  exact keepWithinBounds_interior (by norm_num [cexU1]) (by norm_num [cexU1, cexB1, btv])
    (by norm_num [cexU1]) (by norm_num [cexU1, cexB1, btv])
    (by norm_num [cexU1, cursorFar])

lemma fly_b1s : flyTowardsCenter cexB1 [cexB0, cexB1] = ⟨110, 100, -0.25, 0, colorZ, btv⟩ := by
  have g10 : decide (cexB1.distance cexB0 < VISUAL_RANGE) = true :=
    vis_guard_true (by norm_num [cexB1, cexB0])
  have g11 : decide (cexB1.distance cexB1 < VISUAL_RANGE) = true :=
    vis_guard_true (by norm_num [cexB1])
  simp only [flyTowardsCenter, List.filter_cons, List.filter_nil, g10, g11, if_true]
  norm_num [cexB1, cexB0]

lemma avoid_b1s :
    avoidOthers ⟨110, 100, -0.25, 0, colorZ, btv⟩ [cexB0, cexB1] =
      ⟨110, 100, 4.75, 0, colorZ, btv⟩ := by
  have g10 : decide (Boid.distance ⟨110, 100, -0.25, 0, colorZ, btv⟩ cexB0 < MIN_DISTANCE ∧
      0 < Boid.distance ⟨110, 100, -0.25, 0, colorZ, btv⟩ cexB0) = true :=
    avoid_guard_true (by norm_num [cexB0]) (by norm_num [cexB0])
  have g11 : decide (Boid.distance ⟨110, 100, -0.25, 0, colorZ, btv⟩ cexB1 < MIN_DISTANCE ∧
      0 < Boid.distance ⟨110, 100, -0.25, 0, colorZ, btv⟩ cexB1) = false :=
    avoid_guard_zero (by norm_num [cexB1]) (by norm_num [cexB1])
  simp only [avoidOthers, List.filter_cons, List.filter_nil, g10, g11, if_true, if_false]
  norm_num [cexB0]

lemma match_b1s :
    matchVelocity ⟨110, 100, 4.75, 0, colorZ, btv⟩ [cexB0, cexB1] = cexV1 := by
  have g10 : decide (Boid.distance ⟨110, 100, 4.75, 0, colorZ, btv⟩ cexB0 < VISUAL_RANGE) = true :=
    vis_guard_true (by norm_num [cexB0])
  have g11 : decide (Boid.distance ⟨110, 100, 4.75, 0, colorZ, btv⟩ cexB1 < VISUAL_RANGE) = true :=
    vis_guard_true (by norm_num [cexB1])
  simp only [matchVelocity, List.filter_cons, List.filter_nil, g10, g11, if_true]
  norm_num [cexB0, cexB1, cexV1]

lemma tick_b1s : gameTick 0 cursorFar cexB1 [cexB0, cexB1] = cexV1 := by
  unfold gameTick
  rw [fly_b1s, avoid_b1s, match_b1s]
  rw [limitSpeed_id (by norm_num [cexV1])]
  exact keepWithinBounds_interior (by norm_num [cexV1]) (by norm_num [cexV1, cexB1, btv])
    (by norm_num [cexV1]) (by norm_num [cexV1, cexB1, btv])
    (by norm_num [cexV1, cursorFar])

lemma fly_b0n : flyTowardsCenter cexB0 [cexB1] = ⟨100, 100, 0.5, 0, colorZ, btv⟩ := by
  have g01 : decide (cexB0.distance cexB1 < VISUAL_RANGE) = true :=
    vis_guard_true (by norm_num [cexB0, cexB1])
  simp only [flyTowardsCenter, List.filter_cons, List.filter_nil, g01, if_true]
  norm_num [cexB0, cexB1]

lemma avoid_b0n :
    avoidOthers ⟨100, 100, 0.5, 0, colorZ, btv⟩ [cexB1] =
      ⟨100, 100, -4.5, 0, colorZ, btv⟩ := by
  have g01 : decide (Boid.distance ⟨100, 100, 0.5, 0, colorZ, btv⟩ cexB1 < MIN_DISTANCE ∧
      0 < Boid.distance ⟨100, 100, 0.5, 0, colorZ, btv⟩ cexB1) = true :=
    avoid_guard_true (by norm_num [cexB1]) (by norm_num [cexB1])
  simp only [avoidOthers, List.filter_cons, List.filter_nil, g01, if_true]
  norm_num [cexB1]

lemma match_b0n :
    matchVelocity ⟨100, 100, -4.5, 0, colorZ, btv⟩ [cexB1] = cexW0 := by
  have g01 : decide (Boid.distance ⟨100, 100, -4.5, 0, colorZ, btv⟩ cexB1 < VISUAL_RANGE) = true :=
    vis_guard_true (by norm_num [cexB1])
  simp only [matchVelocity, List.filter_cons, List.filter_nil, g01, if_true]
  norm_num [cexB1, cexW0]

lemma tick_b0n : gameTick 0 cursorFar cexB0 [cexB1] = cexW0 := by
  unfold gameTick
  rw [fly_b0n, avoid_b0n, match_b0n]
  rw [limitSpeed_id (by norm_num [cexW0])]
  exact keepWithinBounds_interior (by norm_num [cexW0]) (by norm_num [cexW0, cexB0, btv])
    (by norm_num [cexW0]) (by norm_num [cexW0, cexB0, btv])
    (by norm_num [cexW0, cursorFar])

/-! ### Concrete input for the speed-bound claim -/

/-- A lone boid moving right at 500 px/s in the middle of the window. -/
def cexC2 : Boid := ⟨600, 360, 500, 0, colorZ, btv⟩

/-- A cursor 19.75 px to the left of `cexC2` (inside the 20 px repulsion zone). -/
def cursorC2 : Point := (580.25, 360)

/-- `cexC2` at the end of its `game_tick`: speed 419.75 > `SPEED_LIMIT`. -/
def cexC2r : Boid := ⟨600, 360, 419.75, 0, colorZ, btv⟩

lemma fly_c2 : flyTowardsCenter cexC2 [cexC2] = cexC2 := by
  have g : decide (cexC2.distance cexC2 < VISUAL_RANGE) = true :=
    vis_guard_true (by norm_num [cexC2])
  simp only [flyTowardsCenter, List.filter_cons, List.filter_nil, g, if_true]
  norm_num [cexC2]

lemma avoid_c2 : avoidOthers cexC2 [cexC2] = cexC2 := by
  have g : decide (cexC2.distance cexC2 < MIN_DISTANCE ∧ 0 < cexC2.distance cexC2) = false :=
    avoid_guard_zero (by norm_num [cexC2]) (by norm_num [cexC2])
  simp only [avoidOthers, List.filter_cons, List.filter_nil, g, if_false]
  norm_num [cexC2]

lemma match_c2 : matchVelocity cexC2 [cexC2] = cexC2 := by
  have g : decide (cexC2.distance cexC2 < VISUAL_RANGE) = true :=
    vis_guard_true (by norm_num [cexC2])
  simp only [matchVelocity, List.filter_cons, List.filter_nil, g, if_true]
  norm_num [cexC2]

lemma limit_c2 : limitSpeed cexC2 = ⟨600, 360, 400, 0, colorZ, btv⟩ := by
  have hs : Real.sqrt (cexC2.dx * cexC2.dx + cexC2.dy * cexC2.dy) = 500 := by
    rw [show cexC2.dx * cexC2.dx + cexC2.dy * cexC2.dy = (500 : ℝ) ^ 2 by norm_num [cexC2]]
    exact Real.sqrt_sq (by norm_num)
  simp only [limitSpeed, hs]
  rw [if_pos (by norm_num [SPEED_LIMIT] : (500 : ℝ) > SPEED_LIMIT)]
  norm_num [cexC2, SPEED_LIMIT]

lemma kwb_c2 :
    keepWithinBounds cursorC2 1280 720 ⟨600, 360, 400, 0, colorZ, btv⟩ = cexC2r := by
  have h1 : ((600 : ℝ)) < 1280 - 40 := by norm_num
  have h2 : ((600 : ℝ)) > 40 := by norm_num
  have h3 : ((360 : ℝ)) < 720 - 40 := by norm_num
  have h4 : ((360 : ℝ)) > 40 := by norm_num
  have hnear : Real.sqrt (((600 : ℝ) - cursorC2.1) ^ 2 + ((360 : ℝ) - cursorC2.2) ^ 2) < 20 := by
    apply sqrt_lt_of_lt_sq (by norm_num)
    norm_num [cursorC2]
  simp [keepWithinBounds, h1, h2, h3, h4, hnear, cexC2r, cursorC2]
  rw [Real.sqrt_sq (by norm_num : (0 : ℝ) ≤ 600 - 580.25)]
  norm_num

lemma tick_c2 : gameTick 0 cursorC2 cexC2 [cexC2] = cexC2r := by
  unfold gameTick
  rw [fly_c2, avoid_c2, match_c2, limit_c2]
  exact kwb_c2

/-! ### Evaluation of the Play stage on the concrete two-boid flock -/

lemma playBody_cex : playBody 0 0 cursorFar [cexB0, cexB1] = [cexU0, cexU1] := by
  have hs0 : playStep 0 0 cursorFar [cexB0, cexB1] 0 = [cexU0, cexB1] := by
    simp only [playStep, List.getElem?_cons_zero, tick_b0, integrate_zero, List.set_cons_zero]
  have hs1 : playStep 0 0 cursorFar [cexU0, cexB1] 1 = [cexU0, cexU1] := by
    simp only [playStep, List.getElem?_cons_succ, List.getElem?_cons_zero, tick_b1,
      integrate_zero, List.set_cons_succ, List.set_cons_zero]
  unfold playBody
  rw [show List.range ([cexB0, cexB1] : List Boid).length = [0, 1] from rfl]
  rw [List.foldl_cons, List.foldl_cons, List.foldl_nil, hs0, hs1]

lemma playBodySnapshot_cex :
    playBodySnapshot 0 0 cursorFar [cexB0, cexB1] = [cexU0, cexV1] := by
  simp only [playBodySnapshot, List.map_cons, List.map_nil, tick_b0, tick_b1s, integrate_zero]

lemma playBodyNoSelf_cex :
    (playBodyNoSelf 0 0 cursorFar [cexB0, cexB1])[0]? = some cexW0 := by
  have hs0 : playStepNoSelf 0 0 cursorFar [cexB0, cexB1] 0 = [cexW0, cexB1] := by
    simp only [playStepNoSelf, List.getElem?_cons_zero, List.eraseIdx_cons_zero, tick_b0n,
      integrate_zero, List.set_cons_zero]
  unfold playBodyNoSelf
  rw [show List.range ([cexB0, cexB1] : List Boid).length = [0, 1] from rfl]
  rw [List.foldl_cons, List.foldl_cons, List.foldl_nil, hs0]
  simp only [playStepNoSelf, List.getElem?_cons_succ, List.getElem?_cons_zero,
    List.set_cons_succ, List.set_cons_zero]

/-- Speed of the end-of-tick boid in the speed-bound counterexample. -/
lemma speed_c2r : Real.sqrt (cexC2r.dx * cexC2r.dx + cexC2r.dy * cexC2r.dy) = 419.75 := by
  rw [show cexC2r.dx * cexC2r.dx + cexC2r.dy * cexC2r.dy = (419.75 : ℝ) ^ 2 by
    norm_num [cexC2r]]
  exact Real.sqrt_sq (by norm_num)

/-! ### Concrete inputs for the containment claims -/

/-- A boid at `x = edge_buffer - 1` with zero velocity, in the y-interior. -/
def cexB5 : Boid := ⟨39, 360, 0, 0, colorZ, btv⟩

/-- A boid near the left edge with `dx = 5`, in the y-interior. -/
def cexB4 : Boid := ⟨20, 360, 5, 0, colorZ, btv⟩

lemma kwb_b5 : (keepWithinBounds cursorFar 1280 720 cexB5).dx = 12.8 := by
  have hcur : ¬ Real.sqrt ((cexB5.x - cursorFar.1) ^ 2 + (cexB5.y - cursorFar.2) ^ 2) < 20 :=
    not_sqrt_lt_of_sq_le (by norm_num) (by norm_num [cexB5, cursorFar])
  rw [keepWithinBounds_dx_eq cursorFar 1280 720 cexB5 hcur]
  rw [if_pos (by norm_num [cexB5] : cexB5.x < 1280 - 40)]
  rw [if_neg (by norm_num [cexB5] : ¬ cexB5.x > 40)]
  norm_num [cexB5]

lemma kwb_b4 : (keepWithinBounds cursorFar 1280 720 cexB4).dx = 16.8 := by
  have hcur : ¬ Real.sqrt ((cexB4.x - cursorFar.1) ^ 2 + (cexB4.y - cursorFar.2) ^ 2) < 20 :=
    not_sqrt_lt_of_sq_le (by norm_num) (by norm_num [cexB4, cursorFar])
  rw [keepWithinBounds_dx_eq cursorFar 1280 720 cexB4 hcur]
  rw [if_pos (by norm_num [cexB4] : cexB4.x < 1280 - 40)]
  rw [if_neg (by norm_num [cexB4] : ¬ cexB4.x > 40)]
  norm_num [cexB4]

/-! ### No-op lemmas for cohesion and alignment with no in-range genuine neighbor -/

lemma filter_vis_all_self {b : Boid} {others : List Boid}
    (h : ∀ o ∈ others, VISUAL_RANGE ≤ b.distance o ∨
      (o.x = b.x ∧ o.y = b.y ∧ o.dx = b.dx ∧ o.dy = b.dy)) :
    ∀ o ∈ others.filter (fun o => decide (b.distance o < VISUAL_RANGE)),
      o.x = b.x ∧ o.y = b.y ∧ o.dx = b.dx ∧ o.dy = b.dy := by
  intro o ho
  rcases List.mem_filter.mp ho with ⟨hmem, hp⟩
  rcases h o hmem with hfar | heq
  · exact absurd (of_decide_eq_true hp) (not_lt.mpr hfar)
  · exact heq

lemma map_sum_const {α : Type _} (f : α → ℝ) (c : ℝ) :
    ∀ (l : List α), (∀ o ∈ l, f o = c) → (l.map f).sum = l.length * c
  | [], _ => by simp
  | a :: l, h => by
      simp only [List.map_cons, List.sum_cons, List.length_cons]
      rw [h a (by simp), map_sum_const f c l (fun o ho => h o (by simp [ho]))]
      push_cast
      ring

lemma flyTowardsCenter_far {b : Boid} {others : List Boid}
    (h : ∀ o ∈ others, VISUAL_RANGE ≤ b.distance o ∨
      (o.x = b.x ∧ o.y = b.y ∧ o.dx = b.dx ∧ o.dy = b.dy)) :
    flyTowardsCenter b others = b := by
  have hall := filter_vis_all_self h
  simp only [flyTowardsCenter]
  split
  case isTrue hnum =>
    have hn : ((others.filter (fun o => decide (b.distance o < VISUAL_RANGE))).length : ℝ) ≠ 0 :=
      ne_of_gt hnum
    rw [map_sum_const Boid.x b.x _ (fun o ho => (hall o ho).1),
        map_sum_const Boid.y b.y _ (fun o ho => (hall o ho).2.1)]
    rw [show (((others.filter (fun o => decide (b.distance o < VISUAL_RANGE))).length : ℝ) * b.x) /
        ((others.filter (fun o => decide (b.distance o < VISUAL_RANGE))).length : ℝ) = b.x from by
      rw [div_eq_iff hn]; ring]
    rw [show (((others.filter (fun o => decide (b.distance o < VISUAL_RANGE))).length : ℝ) * b.y) /
        ((others.filter (fun o => decide (b.distance o < VISUAL_RANGE))).length : ℝ) = b.y from by
      rw [div_eq_iff hn]; ring]
    cases b
    simp
  case isFalse => rfl

lemma matchVelocity_far {b : Boid} {others : List Boid}
    (h : ∀ o ∈ others, VISUAL_RANGE ≤ b.distance o ∨
      (o.x = b.x ∧ o.y = b.y ∧ o.dx = b.dx ∧ o.dy = b.dy)) :
    matchVelocity b others = b := by
  have hall := filter_vis_all_self h
  simp only [matchVelocity]
  split
  case isTrue hnum =>
    have hn : ((others.filter (fun o => decide (b.distance o < VISUAL_RANGE))).length : ℝ) ≠ 0 :=
      ne_of_gt hnum
    rw [map_sum_const Boid.dx b.dx _ (fun o ho => (hall o ho).2.2.1),
        map_sum_const Boid.dy b.dy _ (fun o ho => (hall o ho).2.2.2)]
    rw [show (((others.filter (fun o => decide (b.distance o < VISUAL_RANGE))).length : ℝ) * b.dx) /
        ((others.filter (fun o => decide (b.distance o < VISUAL_RANGE))).length : ℝ) = b.dx from by
      rw [div_eq_iff hn]; ring]
    rw [show (((others.filter (fun o => decide (b.distance o < VISUAL_RANGE))).length : ℝ) * b.dy) /
        ((others.filter (fun o => decide (b.distance o < VISUAL_RANGE))).length : ℝ) = b.dy from by
      rw [div_eq_iff hn]; ring]
    cases b
    simp
  case isFalse => rfl

/-! ### Self-contribution to the cohesion and alignment averages -/

lemma avg_self_delta {n : ℝ} (S bx c : ℝ) (hn : 0 < n) :
    ((bx + S) / (n + 1) - bx) * c = n / (n + 1) * ((S / n - bx) * c) := by
  have h1 : n ≠ 0 := ne_of_gt hn
  have h2 : n + 1 ≠ 0 := by positivity
  field_simp
  ring

lemma fly_self_dx (b : Boid) (rest : List Boid) :
    (flyTowardsCenter b (b :: rest)).dx - b.dx =
      ((rest.filter (fun o => decide (b.distance o < VISUAL_RANGE))).length : ℝ) /
        (((rest.filter (fun o => decide (b.distance o < VISUAL_RANGE))).length : ℝ) + 1) *
        ((flyTowardsCenter b rest).dx - b.dx) := by
  have hself : decide (b.distance b < VISUAL_RANGE) = true := vis_guard_true (by norm_num)
  have hfil : (b :: rest).filter (fun o => decide (b.distance o < VISUAL_RANGE)) =
      b :: rest.filter (fun o => decide (b.distance o < VISUAL_RANGE)) := by
    rw [List.filter_cons]
    simp [hself]
  rcases Nat.eq_zero_or_pos (rest.filter (fun o => decide (b.distance o < VISUAL_RANGE))).length
    with h0 | hpos
  · have hnil : rest.filter (fun o => decide (b.distance o < VISUAL_RANGE)) = [] :=
      List.length_eq_zero.mp h0
    simp [flyTowardsCenter, hfil, hnil]
  · have hn0 : (0 : ℝ) < ((rest.filter (fun o => decide (b.distance o < VISUAL_RANGE))).length : ℝ) := by
      exact_mod_cast hpos
    simp only [flyTowardsCenter, hfil, List.length_cons, List.map_cons, List.sum_cons]
    rw [if_pos (show (0 : ℝ) <
        (((rest.filter (fun o => decide (b.distance o < VISUAL_RANGE))).length + 1 : ℕ) : ℝ) by
      positivity)]
    rw [if_pos hn0]
    push_cast
    rw [add_sub_cancel_left, add_sub_cancel_left]
    exact avg_self_delta _ _ _ hn0

lemma fly_self_dy (b : Boid) (rest : List Boid) :
    (flyTowardsCenter b (b :: rest)).dy - b.dy =
      ((rest.filter (fun o => decide (b.distance o < VISUAL_RANGE))).length : ℝ) /
        (((rest.filter (fun o => decide (b.distance o < VISUAL_RANGE))).length : ℝ) + 1) *
        ((flyTowardsCenter b rest).dy - b.dy) := by
  have hself : decide (b.distance b < VISUAL_RANGE) = true := vis_guard_true (by norm_num)
  have hfil : (b :: rest).filter (fun o => decide (b.distance o < VISUAL_RANGE)) =
      b :: rest.filter (fun o => decide (b.distance o < VISUAL_RANGE)) := by
    rw [List.filter_cons]
    simp [hself]
  rcases Nat.eq_zero_or_pos (rest.filter (fun o => decide (b.distance o < VISUAL_RANGE))).length
    with h0 | hpos
  · have hnil : rest.filter (fun o => decide (b.distance o < VISUAL_RANGE)) = [] :=
      List.length_eq_zero.mp h0
    simp [flyTowardsCenter, hfil, hnil]
  · have hn0 : (0 : ℝ) < ((rest.filter (fun o => decide (b.distance o < VISUAL_RANGE))).length : ℝ) := by
      exact_mod_cast hpos
    simp only [flyTowardsCenter, hfil, List.length_cons, List.map_cons, List.sum_cons]
    rw [if_pos (show (0 : ℝ) <
        (((rest.filter (fun o => decide (b.distance o < VISUAL_RANGE))).length + 1 : ℕ) : ℝ) by
      positivity)]
    rw [if_pos hn0]
    push_cast
    rw [add_sub_cancel_left, add_sub_cancel_left]
    exact avg_self_delta _ _ _ hn0

lemma match_self_dx (b : Boid) (rest : List Boid) :
    (matchVelocity b (b :: rest)).dx - b.dx =
      ((rest.filter (fun o => decide (b.distance o < VISUAL_RANGE))).length : ℝ) /
        (((rest.filter (fun o => decide (b.distance o < VISUAL_RANGE))).length : ℝ) + 1) *
        ((matchVelocity b rest).dx - b.dx) := by
  have hself : decide (b.distance b < VISUAL_RANGE) = true := vis_guard_true (by norm_num)
  have hfil : (b :: rest).filter (fun o => decide (b.distance o < VISUAL_RANGE)) =
      b :: rest.filter (fun o => decide (b.distance o < VISUAL_RANGE)) := by
    rw [List.filter_cons]
    simp [hself]
  rcases Nat.eq_zero_or_pos (rest.filter (fun o => decide (b.distance o < VISUAL_RANGE))).length
    with h0 | hpos
  · have hnil : rest.filter (fun o => decide (b.distance o < VISUAL_RANGE)) = [] :=
      List.length_eq_zero.mp h0
    simp [matchVelocity, hfil, hnil]
  · have hn0 : (0 : ℝ) < ((rest.filter (fun o => decide (b.distance o < VISUAL_RANGE))).length : ℝ) := by
      exact_mod_cast hpos
    simp only [matchVelocity, hfil, List.length_cons, List.map_cons, List.sum_cons]
    rw [if_pos (show (0 : ℝ) <
        (((rest.filter (fun o => decide (b.distance o < VISUAL_RANGE))).length + 1 : ℕ) : ℝ) by
      positivity)]
    rw [if_pos hn0]
    push_cast
    rw [add_sub_cancel_left, add_sub_cancel_left]
    exact avg_self_delta _ _ _ hn0

lemma match_self_dy (b : Boid) (rest : List Boid) :
    (matchVelocity b (b :: rest)).dy - b.dy =
      ((rest.filter (fun o => decide (b.distance o < VISUAL_RANGE))).length : ℝ) /
        (((rest.filter (fun o => decide (b.distance o < VISUAL_RANGE))).length : ℝ) + 1) *
        ((matchVelocity b rest).dy - b.dy) := by
  have hself : decide (b.distance b < VISUAL_RANGE) = true := vis_guard_true (by norm_num)
  have hfil : (b :: rest).filter (fun o => decide (b.distance o < VISUAL_RANGE)) =
      b :: rest.filter (fun o => decide (b.distance o < VISUAL_RANGE)) := by
    rw [List.filter_cons]
    simp [hself]
  rcases Nat.eq_zero_or_pos (rest.filter (fun o => decide (b.distance o < VISUAL_RANGE))).length
    with h0 | hpos
  · have hnil : rest.filter (fun o => decide (b.distance o < VISUAL_RANGE)) = [] :=
      List.length_eq_zero.mp h0
    simp [matchVelocity, hfil, hnil]
  · have hn0 : (0 : ℝ) < ((rest.filter (fun o => decide (b.distance o < VISUAL_RANGE))).length : ℝ) := by
      exact_mod_cast hpos
    simp only [matchVelocity, hfil, List.length_cons, List.map_cons, List.sum_cons]
    rw [if_pos (show (0 : ℝ) <
        (((rest.filter (fun o => decide (b.distance o < VISUAL_RANGE))).length + 1 : ℕ) : ℝ) by
      positivity)]
    rw [if_pos hn0]
    push_cast
    rw [add_sub_cancel_left, add_sub_cancel_left]
    exact avg_self_delta _ _ _ hn0

/-! ### The speed bound immediately after LimitSpeed -/

lemma limitSpeed_speed_le (b : Boid) :
    Real.sqrt ((limitSpeed b).dx * (limitSpeed b).dx + (limitSpeed b).dy * (limitSpeed b).dy) ≤
      SPEED_LIMIT := by
  simp only [limitSpeed]
  split
  case isTrue hgt =>
    set s := Real.sqrt (b.dx * b.dx + b.dy * b.dy) with hs
    have hspos : (0 : ℝ) < s := lt_trans (by norm_num [SPEED_LIMIT]) hgt
    have hss : s * s = b.dx * b.dx + b.dy * b.dy :=
      Real.mul_self_sqrt (add_nonneg (mul_self_nonneg _) (mul_self_nonneg _))
    dsimp only
    have harg : b.dx / s * SPEED_LIMIT * (b.dx / s * SPEED_LIMIT) +
        b.dy / s * SPEED_LIMIT * (b.dy / s * SPEED_LIMIT) = SPEED_LIMIT * SPEED_LIMIT := by
      have hsne : s ≠ 0 := ne_of_gt hspos
      field_simp
      nlinarith [hss]
    rw [harg, Real.sqrt_mul_self (by norm_num [SPEED_LIMIT])]
  case isFalse hle =>
    exact not_lt.mp hle

/-- `game_tick` never reads its `dt` argument in the dynamics. -/
lemma playBody_dtSecs (d1 d2 tick : ℝ) (cursor : Point) (bs : List Boid) :
    playBody d1 tick cursor bs = playBody d2 tick cursor bs := rfl

/-! ### Lemmas about the InputKey stage -/

lemma inputKeyStage_dt (spawn : List Boid) (keys : Keys) (st : GameState) :
    (inputKeyStage spawn keys st).dt = st.dt := by
  obtain ⟨s, dt0, bo, bt0, gob⟩ := st
  cases s <;> simp only [inputKeyStage] <;> (repeat' split) <;> rfl

lemma inputKeyStage_game_op_bt (spawn : List Boid) (keys : Keys) (st : GameState) :
    (inputKeyStage spawn keys st).game_op_bt = st.game_op_bt := by
  obtain ⟨s, dt0, bo, bt0, gob⟩ := st
  cases s <;> simp only [inputKeyStage] <;> (repeat' split) <;> rfl

lemma inputKeyStage_dt_set (spawn : List Boid) (keys : Keys) (st : GameState) (d : Duration) :
    inputKeyStage spawn keys { st with dt := d } =
      { inputKeyStage spawn keys st with dt := d } := by
  obtain ⟨s, dt0, bo, bt0, gob⟩ := st
  cases s <;> simp only [inputKeyStage] <;> (repeat' split) <;> rfl

/-! ### Remaining concrete inputs for witnesses -/

/-- A boid with velocity `(3, 4)` used by the cohesion/alignment witness. -/
def cexC7 : Boid := ⟨100, 100, 3, 4, colorZ, btv⟩

/-- A boid 100 px away from `cexC7` (well outside `VISUAL_RANGE`). -/
def cexFar : Boid := ⟨200, 100, 1, 2, colorZ, btv⟩

/-- A boid at the same position as `cexB0` but with different velocity. -/
def cexZ : Boid := ⟨100, 100, 7, 8, colorZ, btv⟩

/-- A key set with no pressed keys. -/
def cexKeys : Keys := ⟨false, false, false, false⟩

/-- A playing state whose tick duration is 7 s + 999999 ns: almost a full
second beyond seven, yet zero whole subsecond milliseconds. -/
def cexSt : GameState := ⟨.Play, ⟨7, 999999⟩, [cexB0], btv, ⟨0⟩⟩

/-- A `Setup`-phase state used by the short-circuit witness. -/
def cexSt9 : GameState := ⟨.Setup, ⟨0, 0⟩, [], btv, ⟨0⟩⟩

/-! ### The claims -/

/-- C1 (amended): within a tick the agents are processed in index order, and
each agent's neighbor reads observe the flock as of the start of that agent's
own loop iteration — agents earlier in the order are already updated (velocity
integrated into position as well).  For a two-agent flock the second agent's
`game_tick` receives the list containing the *updated* first agent. -/
theorem snapshot_per_iteration (dtSecs tick : ℝ) (cursor : Point) (b0 b1 : Boid) :
    playBody dtSecs tick cursor [b0, b1] =
      [integrate tick (gameTick dtSecs cursor b0 [b0, b1]),
       integrate tick (gameTick dtSecs cursor b1
         [integrate tick (gameTick dtSecs cursor b0 [b0, b1]), b1])] := rfl

/-- C1 counterexample: for the concrete two-boid flock `[cexB0, cexB1]` the
actual per-tick update and the tick-start-snapshot update disagree on the
second agent's velocity (4.06125 vs 4.275), so the second agent *does* observe
the first agent's same-tick update. -/
theorem snapshot_isolation_cex :
    (playBody 0 0 cursorFar [cexB0, cexB1]).map Boid.dx = [-4.275, 4.06125] ∧
    (playBodySnapshot 0 0 cursorFar [cexB0, cexB1]).map Boid.dx = [-4.275, 4.275] ∧
    (playBody 0 0 cursorFar [cexB0, cexB1]).map Boid.dx ≠
      (playBodySnapshot 0 0 cursorFar [cexB0, cexB1]).map Boid.dx := by
  refine ⟨?_, ?_, ?_⟩
  · rw [playBody_cex]
    simp [cexU0, cexU1]
  · rw [playBodySnapshot_cex]
    simp [cexU0, cexV1]
  · rw [playBody_cex, playBodySnapshot_cex]
    simp only [List.map_cons, List.map_nil, ne_eq, List.cons.injEq, not_and]
    intro _ h
    norm_num [cexU1, cexV1] at h

/-- C2 (amended): the speed bound `sqrt(dx² + dy²) ≤ SPEED_LIMIT` holds
immediately after the `LimitSpeed` step — the fourth of the five steps of
`game_tick` — for every agent and neighbor collection.  It does not survive
the subsequent `KeepWithinBounds` step (see the counterexample). -/
theorem speed_bound_after_limit_speed (b : Boid) (others : List Boid) :
    Real.sqrt
      ((limitSpeed (matchVelocity (avoidOthers (flyTowardsCenter b others) others) others)).dx *
         (limitSpeed (matchVelocity (avoidOthers (flyTowardsCenter b others) others) others)).dx +
       (limitSpeed (matchVelocity (avoidOthers (flyTowardsCenter b others) others) others)).dy *
         (limitSpeed (matchVelocity (avoidOthers (flyTowardsCenter b others) others) others)).dy) ≤
      SPEED_LIMIT :=
  limitSpeed_speed_le _

/-- C2 counterexample: a lone boid at `(600, 360)` with velocity `(500, 0)` and
the cursor 19.75 px behind it ends `game_tick` with velocity `(419.75, 0)` —
speed 419.75, exceeding `SPEED_LIMIT = 400` by 19.75, far beyond any rounding
epsilon: `KeepWithinBounds` runs after `LimitSpeed` and re-accelerates. -/
theorem speed_bound_cex :
    gameTick 0 cursorC2 cexC2 [cexC2] = cexC2r ∧
    Real.sqrt
      ((gameTick 0 cursorC2 cexC2 [cexC2]).dx * (gameTick 0 cursorC2 cexC2 [cexC2]).dx +
       (gameTick 0 cursorC2 cexC2 [cexC2]).dy * (gameTick 0 cursorC2 cexC2 [cexC2]).dy) =
      419.75 ∧
    SPEED_LIMIT + 19 < 419.75 := by
  refine ⟨tick_c2, ?_, by norm_num [SPEED_LIMIT]⟩
  rw [tick_c2]
  exact speed_c2r

/-- C3 (amended): the collection handed to the steering engine is the whole
current flock including the processed agent itself; the self entry always
passes the `VISUAL_RANGE` test and is counted in the cohesion and alignment
averages, scaling each velocity delta by `n/(n+1)` relative to the self-free
averages (`n` = number of genuinely-in-range entries); only the separation
step ignores the self entry, through its positive-distance guard. -/
theorem self_in_neighbor_averages (b : Boid) (rest : List Boid) :
    ((b :: rest).filter (fun o => decide (b.distance o < VISUAL_RANGE)) =
      b :: rest.filter (fun o => decide (b.distance o < VISUAL_RANGE))) ∧
    ((flyTowardsCenter b (b :: rest)).dx - b.dx =
      ((rest.filter (fun o => decide (b.distance o < VISUAL_RANGE))).length : ℝ) /
        (((rest.filter (fun o => decide (b.distance o < VISUAL_RANGE))).length : ℝ) + 1) *
        ((flyTowardsCenter b rest).dx - b.dx)) ∧
    ((flyTowardsCenter b (b :: rest)).dy - b.dy =
      ((rest.filter (fun o => decide (b.distance o < VISUAL_RANGE))).length : ℝ) /
        (((rest.filter (fun o => decide (b.distance o < VISUAL_RANGE))).length : ℝ) + 1) *
        ((flyTowardsCenter b rest).dy - b.dy)) ∧
    ((matchVelocity b (b :: rest)).dx - b.dx =
      ((rest.filter (fun o => decide (b.distance o < VISUAL_RANGE))).length : ℝ) /
        (((rest.filter (fun o => decide (b.distance o < VISUAL_RANGE))).length : ℝ) + 1) *
        ((matchVelocity b rest).dx - b.dx)) ∧
    ((matchVelocity b (b :: rest)).dy - b.dy =
      ((rest.filter (fun o => decide (b.distance o < VISUAL_RANGE))).length : ℝ) /
        (((rest.filter (fun o => decide (b.distance o < VISUAL_RANGE))).length : ℝ) + 1) *
        ((matchVelocity b rest).dy - b.dy)) ∧
    avoidOthers b (b :: rest) = avoidOthers b rest := by
  refine ⟨?_, fly_self_dx b rest, fly_self_dy b rest, match_self_dx b rest,
    match_self_dy b rest, ?_⟩
  · rw [List.filter_cons]
    simp [vis_guard_true (b := b) (o := b) (by norm_num)]
  · have hz : decide (b.distance b < MIN_DISTANCE ∧ 0 < b.distance b) = false :=
      avoid_guard_zero rfl rfl
    simp only [avoidOthers, List.filter_cons, hz]
    simp

/-- C3 counterexample: in the two-boid flock `[cexB0, cexB1]`, the first
agent's tick result differs between the actual update (neighbor list =
whole flock, self included: `dx = -4.275`) and the all-others-only update
(`dx = -4.05`), so the collection handed to the engine does contain the agent
itself and the self entry does change the averages. -/
theorem neighbors_include_self_cex :
    ((playBody 0 0 cursorFar [cexB0, cexB1])[0]?).map Boid.dx = some (-4.275) ∧
    ((playBodyNoSelf 0 0 cursorFar [cexB0, cexB1])[0]?).map Boid.dx = some (-4.05) ∧
    ((-4.275 : ℝ)) ≠ -4.05 := by
  refine ⟨?_, ?_, by norm_num⟩
  · rw [playBody_cex]
    simp [cexU0]
  · rw [playBodyNoSelf_cex]
    simp [cexW0]

/-- C4 (amended): with the cursor out of range, the `0.8` damping is applied
on an axis exactly when exactly *one* of that axis' two edge tests fires
(i.e. when a net `turn_factor` push occurred): a single-test (near-edge) boid
is pushed *and* damped, an interior boid gets two cancelling pushes and no
damping, and a boid for which neither test fires is untouched. -/
theorem damping_iff_single_edge_test (cursor : Point) (winW winH : ℝ) (b : Boid)
    (hcur : ¬ Real.sqrt ((b.x - cursor.1) ^ 2 + (b.y - cursor.2) ^ 2) < 20) :
    (b.x < winW - 40 → ¬ b.x > 40 →
      (keepWithinBounds cursor winW winH b).dx = (b.dx + 16) * 0.8) ∧
    (¬ b.x < winW - 40 → b.x > 40 →
      (keepWithinBounds cursor winW winH b).dx = (b.dx - 16) * 0.8) ∧
    (b.x < winW - 40 → b.x > 40 →
      (keepWithinBounds cursor winW winH b).dx = b.dx) ∧
    (¬ b.x < winW - 40 → ¬ b.x > 40 →
      (keepWithinBounds cursor winW winH b).dx = b.dx) := by
  rw [keepWithinBounds_dx_eq _ _ _ _ hcur]
  refine ⟨fun h1 h2 => ?_, fun h1 h2 => ?_, fun h1 h2 => ?_, fun h1 h2 => ?_⟩ <;>
    simp [h1, h2]

theorem damping_iff_single_edge_test_witness :
    (keepWithinBounds cursorFar 1280 720 cexB4).dx = (cexB4.dx + 16) * 0.8 :=
  (damping_iff_single_edge_test cursorFar 1280 720 cexB4
    (not_sqrt_lt_of_sq_le (by norm_num) (by norm_num [cexB4, cursorFar]))).1
    (by norm_num [cexB4]) (by norm_num [cexB4])

/-- C4 counterexample: the boid `cexB4` at `x = 20` receives an edge push
(exactly one x-edge test fires, `xPushCount = 1`) and its `dx` *is* damped:
the result is `(5 + 16) * 0.8 = 16.8`, not the undamped `5 + 16 = 21` the
claim requires when a push occurred. -/
theorem damping_with_push_cex :
    xPushCount 1280 cexB4 = 1 ∧
    (keepWithinBounds cursorFar 1280 720 cexB4).dx = 16.8 ∧
    (16.8 : ℝ) ≠ cexB4.dx + 16 := by
  refine ⟨?_, kwb_b4, by norm_num [cexB4]⟩
  norm_num [xPushCount, cexB4]

/-- C5 (amended): an agent within `edge_buffer` of the left edge (and in the
y-interior, cursor out of range) does receive the interior-directed
`+turn_factor` on `dx`, but the same step then damps that axis by `0.8`:
`dx` becomes `(dx + 16) * 0.8`, so the net gain from the step is
`12.8 - 0.2·dx`, not exactly `+turn_factor`. -/
theorem edge_nudge_then_damp (cursor : Point) (winW winH : ℝ) (b : Boid)
    (hx1 : b.x < winW - 40) (hx2 : ¬ b.x > 40)
    (hy1 : b.y < winH - 40) (hy2 : b.y > 40)
    (hcur : ¬ Real.sqrt ((b.x - cursor.1) ^ 2 + (b.y - cursor.2) ^ 2) < 20) :
    (keepWithinBounds cursor winW winH b).dx = (b.dx + 16) * 0.8 ∧
    (keepWithinBounds cursor winW winH b).dy = b.dy := by
  constructor
  · rw [keepWithinBounds_dx_eq _ _ _ _ hcur, if_pos hx1, if_neg hx2]
  · rw [keepWithinBounds_dy_eq _ _ _ _ hcur, if_pos hy1, if_pos hy2]
    ring

theorem edge_nudge_then_damp_witness :
    (keepWithinBounds cursorFar 1280 720 cexB5).dx = (cexB5.dx + 16) * 0.8 ∧
    (keepWithinBounds cursorFar 1280 720 cexB5).dy = cexB5.dy :=
  edge_nudge_then_damp cursorFar 1280 720 cexB5
    (by norm_num [cexB5]) (by norm_num [cexB5]) (by norm_num [cexB5]) (by norm_num [cexB5])
    (not_sqrt_lt_of_sq_le (by norm_num) (by norm_num [cexB5, cursorFar]))

/-- C5 counterexample: the agent `cexB5` at `x = edge_buffer - 1 = 39` with
`dx = 0` ends the containment step with `dx = 12.8`, not `0 + turn_factor`:
the step's damping makes the gain `12.8`, not exactly `+16`. -/
theorem edge_nudge_cex :
    (keepWithinBounds cursorFar 1280 720 cexB5).dx = 12.8 ∧
    (keepWithinBounds cursorFar 1280 720 cexB5).dx ≠ cexB5.dx + 16 := by
  refine ⟨kwb_b5, ?_⟩
  rw [kwb_b5]
  norm_num [cexB5]

/-- C6: the Play stage advances positions by `velocity * subsec_millis/1000`,
not by the true elapsed seconds: (a) zeroing the whole-seconds part of the
tick duration leaves the resulting flock unchanged, and (b) whenever the
subsecond part is below one millisecond, positions do not move at all — even
when whole seconds have elapsed. -/
theorem integration_subsec_millis (spawn : List Boid) (keys : Keys) (cursor : Point)
    (st : GameState) :
    (gameOpTick spawn keys cursor { st with dt := ⟨0, st.dt.nanos⟩ }).boids =
      (gameOpTick spawn keys cursor st).boids ∧
    (st.dt.nanos < 1000000 →
      (gameOpTick spawn keys cursor st).boids.map Boid.pos =
        (inputKeyStage spawn keys st).boids.map Boid.pos) := by
  constructor
  · simp only [gameOpTick]
    rw [inputKeyStage_dt_set]
    by_cases h : (inputKeyStage spawn keys st).state = PlayState.Play
    · rw [if_pos (show ({ inputKeyStage spawn keys st with dt := ⟨0, st.dt.nanos⟩ } :
          GameState).state = PlayState.Play from h)]
      rw [if_pos h, inputKeyStage_dt]
      exact playBody_dtSecs _ _ _ _ _
    · rw [if_neg (show ¬ ({ inputKeyStage spawn keys st with dt := ⟨0, st.dt.nanos⟩ } :
          GameState).state = PlayState.Play from h)]
      rw [if_neg h]
  · intro hlt
    simp only [gameOpTick]
    by_cases h : (inputKeyStage spawn keys st).state = PlayState.Play
    · rw [if_pos h]
      have hms : (inputKeyStage spawn keys st).dt.subsecMillis = 0 := by
        rw [inputKeyStage_dt]
        exact Nat.div_eq_of_lt hlt
      show (playBody _ ((((inputKeyStage spawn keys st).dt.subsecMillis : ℕ) : ℝ) / 1000) _
        _).map Boid.pos = _
      rw [hms]
      rw [show (((0 : ℕ) : ℝ)) / 1000 = 0 by norm_num]
      exact playBody_map_pos _ _ _
    · rw [if_neg h]

theorem integration_subsec_millis_witness :
    (gameOpTick [] cexKeys cursorFar cexSt).boids.map Boid.pos =
      (inputKeyStage [] cexKeys cexSt).boids.map Boid.pos :=
  (integration_subsec_millis [] cexKeys cursorFar cexSt).2 (by norm_num [cexSt])

/-- C7: an agent whose distance to every genuinely-other agent is at least
`VISUAL_RANGE` (the neighbor list may additionally contain entries equal in
position and velocity to the agent itself, as in the real tick) is left
unchanged by both the cohesion and the alignment step. -/
theorem cohesion_alignment_noop (b : Boid) (others : List Boid)
    (h : ∀ o ∈ others, VISUAL_RANGE ≤ b.distance o ∨
      (o.x = b.x ∧ o.y = b.y ∧ o.dx = b.dx ∧ o.dy = b.dy)) :
    flyTowardsCenter b others = b ∧ matchVelocity b others = b :=
  ⟨flyTowardsCenter_far h, matchVelocity_far h⟩

theorem cohesion_alignment_noop_witness :
    flyTowardsCenter cexC7 [cexFar] = cexC7 ∧ matchVelocity cexC7 [cexFar] = cexC7 :=
  cohesion_alignment_noop cexC7 [cexFar] (by
    intro o ho
    rw [List.mem_singleton] at ho
    subst ho
    left
    unfold Boid.distance VISUAL_RANGE
    apply (Real.le_sqrt' (by norm_num)).mpr
    norm_num [cexC7, cexFar])

/-- C8: the separation step adds `0.5 · Σ (self.pos − neighbor.pos)` over the
neighbors at distance strictly between 0 and `MIN_DISTANCE`; for a single
neighbor 10 px away the velocity delta is `0.5 · (self.pos − other.pos)`,
pointing away from the neighbor with squared magnitude `(0.5·10)²`; and a
neighbor at exactly zero distance contributes nothing. -/
theorem separation_spec (b o z : Boid)
    (h10 : (b.x - o.x) ^ 2 + (b.y - o.y) ^ 2 = 100)
    (hzx : z.x = b.x) (hzy : z.y = b.y) :
    ((avoidOthers b [o]).dx - b.dx = 0.5 * (b.x - o.x) ∧
     (avoidOthers b [o]).dy - b.dy = 0.5 * (b.y - o.y)) ∧
    ((avoidOthers b [o]).dx - b.dx) ^ 2 + ((avoidOthers b [o]).dy - b.dy) ^ 2 =
      (0.5 * 10) ^ 2 ∧
    (∀ rest : List Boid, avoidOthers b (z :: rest) = avoidOthers b rest) ∧
    (∀ others : List Boid,
      (avoidOthers b others).dx = b.dx +
        ((others.filter
          (fun o2 => decide (b.distance o2 < MIN_DISTANCE ∧ 0 < b.distance o2))).map
            (fun o2 => b.x - o2.x)).sum * 0.5 ∧
      (avoidOthers b others).dy = b.dy +
        ((others.filter
          (fun o2 => decide (b.distance o2 < MIN_DISTANCE ∧ 0 < b.distance o2))).map
            (fun o2 => b.y - o2.y)).sum * 0.5) := by
  have hg : decide (b.distance o < MIN_DISTANCE ∧ 0 < b.distance o) = true :=
    avoid_guard_true (by rw [h10]; norm_num) (by rw [h10]; norm_num)
  have hdx : (avoidOthers b [o]).dx = b.dx + (b.x - o.x) * 0.5 := by
    simp only [avoidOthers, List.filter_cons, List.filter_nil, hg]
    simp
  have hdy : (avoidOthers b [o]).dy = b.dy + (b.y - o.y) * 0.5 := by
    simp only [avoidOthers, List.filter_cons, List.filter_nil, hg]
    simp
  refine ⟨⟨by rw [hdx]; ring, by rw [hdy]; ring⟩, ?_, ?_, fun others => ⟨rfl, rfl⟩⟩
  · rw [hdx, hdy]
    ring_nf
    nlinarith [h10]
  · intro rest
    have hz : decide (b.distance z < MIN_DISTANCE ∧ 0 < b.distance z) = false :=
      avoid_guard_zero hzx hzy
    simp only [avoidOthers, List.filter_cons, hz]
    simp

theorem separation_spec_witness :
    (((avoidOthers cexB0 [cexB1]).dx - cexB0.dx = 0.5 * (cexB0.x - cexB1.x) ∧
      (avoidOthers cexB0 [cexB1]).dy - cexB0.dy = 0.5 * (cexB0.y - cexB1.y)) ∧
     ((avoidOthers cexB0 [cexB1]).dx - cexB0.dx) ^ 2 +
       ((avoidOthers cexB0 [cexB1]).dy - cexB0.dy) ^ 2 = (0.5 * 10) ^ 2 ∧
     (∀ rest : List Boid, avoidOthers cexB0 (cexZ :: rest) = avoidOthers cexB0 rest) ∧
     (∀ others : List Boid,
       (avoidOthers cexB0 others).dx = cexB0.dx +
         ((others.filter
           (fun o2 => decide (cexB0.distance o2 < MIN_DISTANCE ∧ 0 < cexB0.distance o2))).map
             (fun o2 => cexB0.x - o2.x)).sum * 0.5 ∧
       (avoidOthers cexB0 others).dy = cexB0.dy +
         ((others.filter
           (fun o2 => decide (cexB0.distance o2 < MIN_DISTANCE ∧ 0 < cexB0.distance o2))).map
             (fun o2 => cexB0.y - o2.y)).sum * 0.5)) :=
  separation_spec cexB0 cexB1 cexZ (by norm_num [cexB0, cexB1])
    (by norm_num [cexZ, cexB0]) (by norm_num [cexZ, cexB0])

/-- C9: on a tick whose phase after the InputKey transition is not `Play`, the
whole tick is exactly the InputKey stage — the per-agent simulation stage does
not run and no boid is touched by it.  The short-circuit is the `Failure`
status of the InputKey action, an ordinary value (the embedding is a total
function; there is no exceptional path). -/
theorem not_playing_short_circuit (spawn : List Boid) (keys : Keys) (cursor : Point)
    (st : GameState) (h : (inputKeyStage spawn keys st).state ≠ PlayState.Play) :
    gameOpTick spawn keys cursor st = inputKeyStage spawn keys st := by
  simp only [gameOpTick]
  rw [if_neg h]

theorem not_playing_short_circuit_witness :
    gameOpTick [] cexKeys cursorFar cexSt9 = inputKeyStage [] cexKeys cexSt9 :=
  not_playing_short_circuit [] cexKeys cursorFar cexSt9 (by
    simp [inputKeyStage, Keys.isEmpty, cexKeys, cexSt9])

/-- C10: ticking never persists behavior-tree state: `game_op_tick` leaves the
stored `game_op_bt` unchanged, `game_tick` leaves the boid's `bt` unchanged,
and the whole Play stage preserves every boid's `bt`; each tick therefore
re-enters both trees from the same state. -/
theorem bt_state_never_persisted (spawn : List Boid) (keys : Keys) (cursor : Point)
    (st : GameState) (dt tick : ℝ) (b : Boid) (others bs : List Boid) :
    (gameOpTick spawn keys cursor st).game_op_bt = st.game_op_bt ∧
    (gameTick dt cursor b others).bt = b.bt ∧
    (playBody dt tick cursor bs).map Boid.bt = bs.map Boid.bt := by
  refine ⟨?_, gameTick_bt _ _ _ _, playBody_map_bt _ _ _ _⟩
  simp only [gameOpTick]
  split
  · exact inputKeyStage_game_op_bt _ _ _
  · exact inputKeyStage_game_op_bt _ _ _

end Boids
